import Mathlib

/-!
Verification of the PyBloom coffee-machine protocol core.

This file gives a shallow embedding, in Lean 4, of the parts of the
PyBloom code base that the verified properties talk about:

* `src/xbloom/protocol/constants.py` : the CRC16 routine and the
  response-code table;
* `src/xbloom/protocol/builder.py`   : `build_command`;
* `src/xbloom/protocol/parser.py`    : `parse_response`;
* `src/xbloom/models/types.py`       : `PourStep` and `XBloomRecipe`
  with their construction-time validation;
* `src/xbloom/models/recipes.py`     : `build_recipe_payload`;
* `src/xbloom/models/manual.py`      : the estimated pour sleep time;
* `src/xbloom/core/client.py`        : notification defragmentation
  (`_on_notification`), frame dispatch (`_parse_response`,
  `_handle_response`) and the command trace of `brew_without_grinding`;
* `src/xbloom/connection/robust.py`  : `robust_connect`.

Bytes are modelled as `Nat` (every produced byte is shown or kept
`< 256` where it matters), Python `int` as `Int`, Python `float` as
`Rat` (exact arithmetic; every comparison the code performs on these
values is exact at the inputs used in the theorems).  Python functions
that raise are modelled with `Except`/`Option`.
-/

/-! ## Little-endian packing helpers (struct.pack / struct.unpack) -/

/-- Bytes of `struct.pack('<H', x)`; faithful for `x < 2 ^ 16`
(Python raises `struct.error` outside that range). -/
def le16 (x : Nat) : List Nat :=
  [x % 256, x / 256 % 256]

/-- Bytes of `struct.pack('<I', x)`; faithful for `x < 2 ^ 32`. -/
def le32 (x : Nat) : List Nat :=
  [x % 256, x / 256 % 256, x / 65536 % 256, x / 16777216 % 256]

/-- `struct.unpack('<H', buf[i:i+2])`. -/
def le16At (buf : List Nat) (i : Nat) : Nat :=
  buf.getD i 0 + 256 * buf.getD (i + 1) 0

/-- `struct.unpack('<I', buf[i:i+4])`. -/
def le32At (buf : List Nat) (i : Nat) : Nat :=
  buf.getD i 0 + 256 * buf.getD (i + 1) 0
    + 65536 * buf.getD (i + 2) 0 + 16777216 * buf.getD (i + 3) 0

/-! ## CRC16 (protocol/constants.py, `crc16`) -/

/-- One shift round of the CRC16 loop: if the low bit is set, shift
right and xor with 0x8408, else shift right. -/
def crcRound (crc : Nat) : Nat :=
  if crc % 2 = 1 then (crc / 2) ^^^ 0x8408 else crc / 2

/-- Fold one input byte into the accumulator: xor it in, then run
eight shift rounds. -/
def crcByte (crc b : Nat) : Nat :=
  (crcRound ∘ crcRound ∘ crcRound ∘ crcRound ∘
   crcRound ∘ crcRound ∘ crcRound ∘ crcRound) (crc ^^^ b)

/-- `crc16` from protocol/constants.py: accumulator starts at 0 and
every byte is folded in by `crcByte`. -/
def crc16 (data : List Nat) : Nat :=
  data.foldl crcByte 0

/-! ## build_command (protocol/builder.py) -/

/-- `build_command(command, data, type_code, device_id)`:
header `58 | device_id | type_code | cmd(LE16) | total_length(LE32) | 01`,
then each data value as LE32, then the CRC16 of everything so far as
LE16.  `total_length = 12 + 4 * len(data)`. -/
def build_command (command : Nat) (data : List Nat)
    (type_code : Nat := 1) (device_id : Nat := 1) : List Nat :=
  let pre : List Nat :=
    0x58 :: device_id % 256 :: type_code % 256 ::
      (le16 command ++ le32 (12 + 4 * data.length) ++
        0x01 :: (data.map le32).flatten)
  pre ++ le16 (crc16 pre)

/-! ## parse_response (protocol/parser.py) -/

/-- Result record of `parse_response` (the fields the function builds;
`command_name` is a diagnostic string and is not modelled). -/
structure ParsedPacket where
  header : List Nat
  command : Nat
  payload : List Nat
  validCrc : Bool
  deriving DecidableEq, Repr

/-- `parse_response(data)`: `None` for inputs shorter than 12 bytes;
otherwise the CRC over `data[:-2]` is compared against the trailing
LE16 word, the header is `data[0:3]`, the command is the LE16 word at
offset 3 (guarded by `len(data) >= 5` in the source), and the data
field is the slice `data[8:-2]` when `len(data) > 10`, else empty. -/
def parse_response (data : List Nat) : Option ParsedPacket :=
  if data.length < 12 then none
  else
    some
      { header := data.take 3
        command := if 5 ≤ data.length then le16At data 3 else 0
        payload :=
          if 10 < data.length then (data.drop 8).take (data.length - 10)
          else []
        validCrc := le16At data (data.length - 2) = crc16 (data.take (data.length - 2)) }

/-! ## models/types.py : enums, PourStep, XBloomRecipe -/

/-- Pour styles (`PourPattern` IntEnum): CENTER = 0, CIRCULAR = 1,
SPIRAL = 2. -/
inductive PourPattern where
  | center
  | circular
  | spiral
  deriving DecidableEq, Repr

/-- Numeric value of a `PourPattern` member (`int(pour.pattern)`). -/
def PourPattern.code : PourPattern → Nat
  | .center => 0
  | .circular => 1
  | .spiral => 2

/-- Vibration settings (`VibrationPattern` IntEnum): NONE = 0,
BEFORE = 1, AFTER = 2, BOTH = 3. -/
inductive VibrationPattern where
  | none
  | before
  | after
  | both
  deriving DecidableEq, Repr

/-- Numeric value of a `VibrationPattern` member. -/
def VibrationPattern.code : VibrationPattern → Nat
  | .none => 0
  | .before => 1
  | .after => 2
  | .both => 3

/-- Machine hardware models (`MachineModel` IntEnum). -/
inductive MachineModel where
  | original
  | studio
  | unknown
  deriving DecidableEq, Repr

/-- `PourStep` dataclass fields.  `volume`, `temperature`, `pausing`
are Python ints, `flow_rate` a Python float (modelled exactly as a
rational). -/
structure PourStep where
  volume : Int
  temperature : Int
  flow_rate : Rat := 3
  pausing : Int := 0
  pattern : PourPattern := .spiral
  vibration : VibrationPattern := .none
  deriving DecidableEq, Repr

/-- `PourStep.__post_init__`: the construction-time checks, in source
order; the first violated check raises `ValueError`.  The flow check
in the source is a nested pair of ifs (reject when the rate is outside
[3.0, 3.5] and also nonzero); it is written here as the equivalent
conjunction. -/
def PourStep.postInit (s : PourStep) : Except String PourStep :=
  if (s.flow_rate < 3 ∨ (7 : Rat) / 2 < s.flow_rate) ∧ s.flow_rate ≠ 0 then
    .error "Flow rate out of range (3.0-3.5)"
  else if s.temperature ≠ 0 ∧ (s.temperature < 40 ∨ 100 < s.temperature) then
    .error "Temperature out of range (40-100)"
  else if s.volume < 0 then
    .error "Volume must be non-negative"
  else if s.pausing < 0 then
    .error "Pause must be non-negative"
  else
    .ok s

/-- `XBloomRecipe` dataclass fields (with the source defaults).
`bean_weight` is a Python float, modelled as a rational; `cup_type` is
a plain int in the source. -/
structure XBloomRecipe where
  grind_size : Int := 60
  total_water : Int := 0
  rpm : Int := 60
  cup_type : Int := 0
  name : String := "Unknown"
  bean_weight : Rat := 15
  id : Int := 0
  adapted_model : String := "Original"
  machine_type : MachineModel := .original
  pours : List PourStep := []
  deriving DecidableEq, Repr

/-- `XBloomRecipe.__post_init__`: checks in source order.  The grind
check is a nested pair of ifs (raise only when the size is outside
[0, 150] and also nonzero — the inner test is redundant, since 0 is
inside the range); it is written here as the equivalent conjunction. -/
def XBloomRecipe.postInit (r : XBloomRecipe) : Except String XBloomRecipe :=
  if (¬ (0 ≤ r.grind_size ∧ r.grind_size ≤ 150)) ∧ r.grind_size ≠ 0 then
    .error "Grind size out of range (1-150)"
  else if ¬ (r.rpm = 0 ∨ r.rpm = 60 ∨ r.rpm = 70 ∨ r.rpm = 80 ∨ r.rpm = 90 ∨
      r.rpm = 100 ∨ r.rpm = 110 ∨ r.rpm = 120) then
    .error "RPM invalid (Must be multiple of 10 in 60-120)"
  else if 20 < r.pours.length then
    .error "Max 20 pours allowed"
  else if r.bean_weight < 0 ∨ 100 < r.bean_weight then
    .error "Bean weight invalid (0-100)"
  else
    .ok r

/-! ## models/recipes.py : build_recipe_payload -/

/-- Python `int()` on a float: truncation toward zero. -/
def pyInt (q : Rat) : Int :=
  if 0 ≤ q then ⌊q⌋ else ⌈q⌉

/-- A value reduced to one byte.  Models both `x & 0xFF` (which is
exactly `x mod 256` on Python ints) and `struct.pack('B', x)` for the
in-range values produced by a validated recipe (out of range, Python
`struct.pack` raises instead of wrapping; no claim depends on that
case). -/
def toByte (x : Int) : Nat :=
  (x % 256).toNat

/-- One 4-byte sub-record `[volume_chunk, temperature, pattern,
vibration]` (`pack_sub_step`). -/
def packSubStep (pour : PourStep) (vol : Int) : List Nat :=
  [toByte vol, toByte pour.temperature, pour.pattern.code, pour.vibration.code]

/-- The chunking loop of `build_recipe_payload`: a volume above 127 is
split into `volume // 127` chunks of 127 plus the positive remainder;
otherwise it is emitted as a single chunk.  Python `//` and `%` are
floor division and its remainder. -/
def chunkVolumes (v : Int) : List Int :=
  if 127 < v then
    List.replicate (v.fdiv 127).toNat 127 ++
      (if 0 < v.fmod 127 then [v.fmod 127] else [])
  else [v]

/-- All sub-records emitted for one pour step. -/
def pourSubSteps (pour : PourStep) : List (List Nat) :=
  (chunkVolumes pour.volume).map (packSubStep pour)

/-- The 4-byte per-step metadata record
`[pause_byte, 0, rpm_byte, flow_byte]` with
`pause_byte = (-pausing) & 0xFF`, `rpm_byte = rpm & 0xFF` for the
first pour only, and `flow_byte = int(flow_rate * 10) & 0xFF`. -/
def pourMeta (recipe : XBloomRecipe) (i : Nat) (pour : PourStep) : List Nat :=
  [toByte (-pour.pausing), 0,
   if i = 0 then toByte recipe.rpm else 0,
   toByte (pyInt (pour.flow_rate * 10))]

/-- `build_recipe_payload(recipe)`: per pour step, its sub-records
followed by its metadata record; then the 2-byte footer
`[grind_size & 0xFF, (total_water * 10) & 0xFF]`; the whole body is
prefixed with a body-length byte (`struct.pack('B', body_len)`, which
requires the body to be shorter than 256 bytes; modelled mod 256 —
no claim touches the length byte). -/
def build_recipe_payload (recipe : XBloomRecipe) : List Nat :=
  let body :=
    (recipe.pours.enum.map
      (fun p => (pourSubSteps p.2).flatten ++ pourMeta recipe p.1 p.2)).flatten
  let footer := [toByte recipe.grind_size, toByte (recipe.total_water * 10)]
  body.length % 256 :: body ++ footer

/-! ## models/manual.py : estimated pour sleep time -/

/-- The sleep estimate of `XBloomManualRecipe.execute` for one pour:
`volume / flow_rate` plus the fixed 2-second buffer.  Python float
division raises `ZeroDivisionError` when `flow_rate` is zero, which is
modelled as `none`. -/
def estimatedPourSleep (pour : PourStep) : Option Rat :=
  if pour.flow_rate = 0 then none
  else some ((pour.volume : Rat) / pour.flow_rate + 2)

/-! ## core/client.py : device status and the state machine -/

/-- Device operational states (`DeviceState`). -/
inductive DeviceState where
  | unknown
  | idle
  | grinding
  | brewing
  | paused
  | error
  | sleeping
  deriving DecidableEq, Repr

/-- `GrinderStatus` dataclass.  `position` holds the 32-bit word from
the gear report. -/
structure GrinderStatus where
  isRunning : Bool := false
  speed : Int := 0
  size : Int := 0
  position : Nat := 0
  deriving DecidableEq, Repr

/-- `BrewerStatus` dataclass. -/
structure BrewerStatus where
  isRunning : Bool := false
  temperature : Rat := 0
  targetTemperature : Rat := 92
  mode : Int := 0
  deriving DecidableEq, Repr

/-- `ScaleStatus` dataclass.  `weight` is set from
`struct.unpack('<f', ...)`; the 32-bit little-endian word is stored
as-is (the IEEE-754 reading of the bit pattern is not interpreted —
no claim depends on the numeric reading). -/
structure ScaleStatus where
  weight : Nat := 0
  isTared : Bool := false
  deriving DecidableEq, Repr

/-- `DeviceStatus` dataclass: the complete status snapshot.  The three
machine-info text fields store the raw payload byte slices (the UTF-8
decoding and NUL stripping of the source are presentation only).
`lastUpdate` models the `datetime.now()` stamp as an abstract clock
value supplied by the caller. -/
structure DeviceStatus where
  state : DeviceState := .unknown
  connected : Bool := false
  grinder : GrinderStatus := {}
  brewer : BrewerStatus := {}
  scale : ScaleStatus := {}
  serialNumber : List Nat := []
  model : List Nat := []
  version : List Nat := []
  waterLevelOk : Bool := false
  waterVolume : Nat := 0
  lastUpdate : Nat := 0
  deriving DecidableEq, Repr

/-- The numeric values of the `XBloomResponse` enumeration
(protocol/constants.py); `XBloomResponse(cmd)` succeeds exactly for
these. -/
def responseCodes : List Nat :=
  [8204, 8203, 40510, 9005, 40502, 8007, 8107, 9010, 8108, 40520,
   8022, 40527, 40511, 10507, 20501, 50038, 50039, 40526, 8111, 40525,
   11512, 11510, 11518, 11511, 40512, 40513, 40517, 40522, 9003, 9009,
   8105, 8106, 40505, 40507, 9001, 9000, 9002, 8103, 8023, 40521,
   8011, 8009, 9006, 9004, 9008, 40501, 8113, 40515, 9011, 9012,
   8015, 40523, 4508]

/-- `XBloomClient._handle_response`: dispatch on the response code.
The payload is `data[10:-2]` when `len(data) > 12`, else empty.
Branches in source order; codes with no branch leave the status
unchanged.  In the machine-info branch the source reads
`payload[34]` inside a `try` guarded only by `len(payload) >= 34`, so
for a 34-byte payload the first four fields are set and the
`IndexError` is swallowed before `water_volume` is reached; the
water-volume write happens only when `len(payload) >= 37`.  The two
float words (scale weight, water volume) are stored as raw 32-bit
words. -/
def handleResponse (st : DeviceStatus) (cmd : Nat) (data : List Nat) : DeviceStatus :=
  let payload := if 12 < data.length then (data.drop 10).take (data.length - 12) else []
  if cmd = 40521 then -- RD_MachineInfo
    if 34 ≤ payload.length then
      let st1 := { st with
        serialNumber := payload.take 13
        model := (payload.drop 13).take 6
        version := (payload.drop 19).take 10
        waterLevelOk := payload.getD 33 0 = 1 }
      if 37 ≤ payload.length then { st1 with waterVolume := payload.getD 36 0 }
      else st1
    else st
  else if cmd = 40505 then -- RD_GearReport
    if 4 ≤ payload.length then
      { st with grinder := { st.grinder with position := le32At payload 0 } }
    else st
  else if cmd = 20501 then -- RD_CURRENT_WEIGHT2
    if 4 ≤ payload.length then
      { st with scale := { st.scale with weight := le32At payload 0 } }
    else st
  else if cmd = 8108 then -- RD_BREWER_TEMPERATURE
    if 4 ≤ payload.length then
      { st with brewer := { st.brewer with temperature := (le32At payload 0 : Rat) / 10 } }
    else st
  else if cmd = 9003 then -- RD_GRINDER_BEGIN
    { st with grinder := { st.grinder with isRunning := true }, state := .grinding }
  else if cmd = 40507 then -- RD_Grinder_Stop
    { st with grinder := { st.grinder with isRunning := false }, state := .idle }
  else if cmd = 9005 then -- RD_BREWER_BEGIN
    { st with brewer := { st.brewer with isRunning := true }, state := .brewing }
  else if cmd = 40511 then -- RD_Brewer_Stop
    { st with brewer := { st.brewer with isRunning := false }, state := .idle }
  else if cmd = 40510 then -- RD_BLOOM
    { st with state := .brewing }
  else if cmd = 9010 then -- RD_BREWER_PAUSE
    { st with state := .paused }
  else if cmd = 40502 then -- RD_BREWER_COFFEE_START
    { st with brewer := { st.brewer with isRunning := true }, state := .brewing }
  else if cmd = 40523 then -- RD_WATER_VOLUME
    if 4 ≤ payload.length then { st with waterVolume := le32At payload 0 }
    else st
  else if cmd = 9001 then -- RD_IN_BREWER
    if 12 ≤ payload.length then
      { st with
        brewer := { st.brewer with temperature := (le32At payload 4 : Rat), isRunning := true }
        state := .brewing }
    else st
  else st

/-- `XBloomClient._parse_response`: frames shorter than 10 bytes are
dropped; otherwise the LE16 command at offset 3 is dispatched through
`XBloomResponse` (an unrecognized code only logs), and the
`last_update` stamp is set for every processed frame.  Observer
callbacks do not touch the status.  `now` is the abstract clock value
of `datetime.now()`. -/
def clientParseResponse (st : DeviceStatus) (now : Nat) (data : List Nat) : DeviceStatus :=
  if data.length < 10 then st
  else
    let cmd := le16At data 3
    let st1 := if cmd ∈ responseCodes then handleResponse st cmd data else st
    { st1 with lastUpdate := now }

/-! ## core/client.py : notification defragmentation -/

/-- One iteration of the `_on_notification` scan loop at a given
offset (the loop guard `offset < len(raw_data)` is checked by the
caller): a byte that is not one of the two header tags advances the
offset by one; fewer than 10 remaining bytes stop the scan; a declared
total length (LE32 at offset + 5) reaching past the buffer stops the
scan; otherwise exactly that many bytes are emitted as one frame and
the offset advances past them. -/
inductive ScanStep where
  | next (offset : Nat) (emitted : Option (List Nat))
  | stop
  deriving DecidableEq, Repr

/-- See `ScanStep`.  The `except` arm of the source loop (advance by
one) is unreachable: the loop body cannot raise, because
`_parse_response` swallows every exception and the length slice is
in bounds. -/
def scanIter (buf : List Nat) (offset : Nat) : ScanStep :=
  let b := buf.getD offset 0
  if b ≠ 0x58 ∧ b ≠ 0x02 then .next (offset + 1) none
  else if buf.length - offset < 10 then .stop
  else
    let totalLen := le32At buf (offset + 5)
    if buf.length < offset + totalLen then .stop
    else .next (offset + totalLen) (some ((buf.drop offset).take totalLen))

/-- The scan loop with explicit fuel (the Python `while` has no bound;
a run that consumes all fuel without reaching a stop models a loop
that is still running).  Returns the list of frames handed to
`_parse_response`. -/
def defragAux (buf : List Nat) : Nat → Nat → List (List Nat)
  | 0, _ => []
  | fuel + 1, offset =>
      if offset < buf.length then
        match scanIter buf offset with
        | .stop => []
        | .next off em => em.toList ++ defragAux buf fuel off
      else []

/-- `XBloomClient._on_notification`: run the scan from offset 0.  One
fuel unit more than the buffer length suffices for every terminating
run, since every productive iteration advances the offset. -/
def onNotificationFrames (buf : List Nat) : List (List Nat) :=
  defragAux buf (buf.length + 1) 0

/-! ## core/client.py : brew_without_grinding command trace -/

/-- One client send, recorded at the client-API level.  The float
arguments of `set_bypass` and `set_cup` are carried as exact
rationals; their IEEE-754 bit packing into the wire payload is not
interpreted. -/
inductive ClientCmd where
  | setBypass (volume temp : Rat) (dose : Int)
  | setCup (cupMax cupMin : Rat)
  | sendRaw (command : Nat) (payload : List Nat)
  | sendCmd (command : Nat)
  deriving DecidableEq, Repr

/-- The `cup_bounds` lookup of `brew_without_grinding`:
`{1: (80.0, 0.0), 2: (90.0, 0.0), 3: (90.0, 0.0)}` with `.get`
default `(90.0, 40.0)`; the pair is (max, min). -/
def cupBoundsNoGrind (ct : Int) : Rat × Rat :=
  if ct = 1 then (80, 0)
  else if ct = 2 then (90, 0)
  else if ct = 3 then (90, 0)
  else (90, 40)

/-- The commands `XBloomClient.brew_without_grinding` sends, in order
(the sending phase; the optional completion wait polls and sends
nothing): bypass with volume 0, temperature 0, dose 0; the cup bounds
for the recipe cup type; the recipe payload under command 8004
(APP_RECIPE_SEND_MANUAL); then execute (8002, APP_RECIPE_EXECUTE). -/
def brewWithoutGrindingCmds (recipe : XBloomRecipe) : List ClientCmd :=
  let bounds := cupBoundsNoGrind recipe.cup_type
  [ .setBypass 0 0 0,
    .setCup bounds.1 bounds.2,
    .sendRaw 8004 (build_recipe_payload recipe),
    .sendCmd 8002 ]

/-! ## connection/robust.py : robust_connect -/

/-- What one underlying `BleakConnection.connect` attempt does: raise,
or return with the connection flag left true or false. -/
inductive AttemptOutcome where
  | raised
  | returned (connected : Bool)
  deriving DecidableEq, Repr

/-- The handle `robust_connect` may return; only its `is_connected`
flag is relevant to the claims. -/
structure Transport where
  connected : Bool
  deriving DecidableEq, Repr

/-- The attempt loop of `robust_connect`, from a given attempt number
with `remaining` attempts left (the Python loop runs attempts
1 to `max_retries`): an attempt that returns with `is_connected` true
yields the handle at once; a raising attempt or one that leaves the
flag false falls through to the cleanup steps (process kill,
bluetoothctl disconnect, backoff — none of which affect the returned
value; their influence on later attempts is absorbed into `behavior`)
and the next attempt; when the attempts are exhausted the result is
`None`. -/
def robustConnectFrom (behavior : Nat → AttemptOutcome) :
    (attempt remaining : Nat) → Option Transport
  | _, 0 => none
  | attempt, remaining + 1 =>
      match behavior attempt with
      | .returned true => some ⟨true⟩
      | _ => robustConnectFrom behavior (attempt + 1) remaining

/-- `robust_connect(mac_address, timeout, max_retries = 3)`: attempts
are numbered 1 to `max_retries`. -/
def robust_connect (behavior : Nat → AttemptOutcome)
    (maxRetries : Nat := 3) : Option Transport :=
  robustConnectFrom behavior 1 maxRetries

/-- A frame the defragmenter recognizes and slices whole: it starts
with one of the two header tags, is at least header-sized, and its
declared total length (LE32 at offset 5) equals its size.  Outputs of
`build_command` are of this shape (proved below). -/
def WellFramed (p : List Nat) : Prop :=
  (p.getD 0 0 = 0x58 ∨ p.getD 0 0 = 0x02) ∧ 10 ≤ p.length ∧ le32At p 5 = p.length

/-! ### Basic facts about build_command -/

theorem length_flatten_map_le32 (data : List Nat) :
    (data.map le32).flatten.length = 4 * data.length := by
  induction data with
  | nil => simp
  | cons x xs ih =>
      simp only [List.map_cons, List.flatten_cons, List.length_append, ih,
        List.length_cons, le32, List.length_nil]
      omega

theorem build_command_length (command : Nat) (data : List Nat)
    (type_code device_id : Nat) :
    (build_command command data type_code device_id).length = 12 + 4 * data.length := by
  simp only [build_command, List.length_append, List.length_cons,
    length_flatten_map_le32, le16, le32, List.length_nil]
  omega

set_option maxRecDepth 20000 in
/-- Claim C1 evaluation: the 16-byte packet built for command 4506
(APP_BREWER_START) with the single data word 1 decodes with a valid
CRC, the original command, device id and type code (the latter two in
the header), but the decoded data field is the slice `data[8:-2]`,
which prepends the last length byte and the reserved byte 0x01 to the
4-byte payload: it is `[0, 1, 1, 0, 0, 0]`, not the encoded payload
`[1, 0, 0, 0]`. -/
theorem c1_parse_payload_mismatch :
    ∃ p : ParsedPacket,
      parse_response (build_command 4506 [1] 1 1) = some p ∧
      p.command = 4506 ∧
      p.header = [0x58, 1, 1] ∧
      p.validCrc = true ∧
      p.payload = [0, 1, 1, 0, 0, 0] ∧
      p.payload ≠ [1, 0, 0, 0] := by
  refine ⟨_, rfl, ?_, ?_, ?_, ?_, ?_⟩ <;> decide

/-! ### Claim C2 : construction-time validation -/

theorem pourStep_postInit_ok_iff (s : PourStep) :
    s.postInit = .ok s ↔
      (¬ ((s.flow_rate < 3 ∨ (7 : Rat) / 2 < s.flow_rate) ∧ s.flow_rate ≠ 0) ∧
       ¬ (s.temperature ≠ 0 ∧ (s.temperature < 40 ∨ 100 < s.temperature)) ∧
       ¬ s.volume < 0 ∧ ¬ s.pausing < 0) := by
  unfold PourStep.postInit
  split_ifs with h1 h2 h3 h4 <;> simp_all

theorem recipe_postInit_ok_iff (r : XBloomRecipe) :
    r.postInit = .ok r ↔
      (¬ ((¬ (0 ≤ r.grind_size ∧ r.grind_size ≤ 150)) ∧ r.grind_size ≠ 0) ∧
       (r.rpm = 0 ∨ r.rpm = 60 ∨ r.rpm = 70 ∨ r.rpm = 80 ∨ r.rpm = 90 ∨
        r.rpm = 100 ∨ r.rpm = 110 ∨ r.rpm = 120) ∧
       ¬ 20 < r.pours.length ∧
       ¬ (r.bean_weight < 0 ∨ 100 < r.bean_weight)) := by
  unfold XBloomRecipe.postInit
  split_ifs with h1 h2 h3 h4 <;> simp_all

/-- Claim C2: `PourStep` and `XBloomRecipe` construction succeed
exactly when every checked field is in its documented range —
`flow_rate` zero or in [3.0, 3.5], temperature zero or in [40, 100],
volume and pause non-negative; grind size in [0, 150], rpm in
{0, 60, 70, 80, 90, 100, 110, 120}, at most 20 pour steps and bean
weight in [0, 100] — and raise otherwise. -/
theorem c2_validation_iff :
    (∀ s : PourStep, s.postInit = .ok s ↔
      ((s.flow_rate = 0 ∨ (3 ≤ s.flow_rate ∧ s.flow_rate ≤ 7 / 2)) ∧
       (s.temperature = 0 ∨ (40 ≤ s.temperature ∧ s.temperature ≤ 100)) ∧
       0 ≤ s.volume ∧ 0 ≤ s.pausing)) ∧
    (∀ r : XBloomRecipe, r.postInit = .ok r ↔
      ((0 ≤ r.grind_size ∧ r.grind_size ≤ 150) ∧
       (r.rpm = 0 ∨ r.rpm = 60 ∨ r.rpm = 70 ∨ r.rpm = 80 ∨ r.rpm = 90 ∨
        r.rpm = 100 ∨ r.rpm = 110 ∨ r.rpm = 120) ∧
       r.pours.length ≤ 20 ∧
       (0 ≤ r.bean_weight ∧ r.bean_weight ≤ 100))) := by
  constructor
  · intro s
    rw [pourStep_postInit_ok_iff s]
    refine and_congr ?_ (and_congr ?_ (and_congr ?_ ?_))
    · rw [not_and_or, not_or, not_lt, not_lt, not_ne_iff]
      exact or_comm
    · omega
    · omega
    · omega
  · intro r
    rw [recipe_postInit_ok_iff r]
    refine and_congr ?_ (and_congr ?_ (and_congr ?_ ?_))
    · omega
    · exact Iff.rfl
    · omega
    · rw [not_or, not_lt, not_lt]

/-! ### Claim C9 : manual pour sleep estimate -/

/-- Claim C9 counterexample: the `PourStep` constructor accepts a step
with `flow_rate = 0` (the flow check explicitly allows zero), and for
that step the sleep estimate `volume / flow_rate` of
`XBloomManualRecipe.execute` divides by zero. -/
theorem c9_flow_zero_accepted_div_undefined :
    PourStep.postInit { volume := 100, temperature := 93, flow_rate := 0 } =
      .ok { volume := 100, temperature := 93, flow_rate := 0 } ∧
    estimatedPourSleep { volume := 100, temperature := 93, flow_rate := 0 } = none := by
  constructor
  · norm_num [PourStep.postInit]
  · norm_num [estimatedPourSleep]

/-- Claim C9 amended: for every pour step accepted by the `PourStep`
constructor whose flow rate is nonzero, the estimated sleep duration
(volume divided by flow rate plus the fixed buffer) is well-defined;
the constructor also accepts `flow_rate = 0`, for which the division
is undefined (see the counterexample). -/
theorem c9_sleep_welldefined_nonzero_flow (p : PourStep)
    (_hok : p.postInit = .ok p) (hf : p.flow_rate ≠ 0) :
    (estimatedPourSleep p).isSome = true := by
  simp [estimatedPourSleep, hf]

theorem c9_sleep_welldefined_witness :
    (estimatedPourSleep { volume := 100, temperature := 93, flow_rate := 3 }).isSome = true :=
  c9_sleep_welldefined_nonzero_flow
    { volume := 100, temperature := 93, flow_rate := 3 }
    (by norm_num [PourStep.postInit]) (by norm_num)

/-! ### Claim C5 : the flow byte of the metadata record -/

/-- Claim C5 counterexample: the constructor accepts `flow_rate`
3.35 (it lies in [3.0, 3.5]); the metadata record of the recipe
encoder carries flow byte `int(3.35 * 10) = 33` (the source
truncates), while `round(3.35 * 10) = 34`, so the emitted byte is not
the rounded value.  (In the Python source the product `3.35 * 10` is
the exact float `33.5`, so the exact-rational model agrees with the
float computation at this input.) -/
theorem c5_flow_byte_truncates_not_rounds :
    PourStep.postInit { volume := 50, temperature := 93, flow_rate := 67 / 20 } =
      .ok { volume := 50, temperature := 93, flow_rate := 67 / 20 } ∧
    (pourMeta {} 0 { volume := 50, temperature := 93, flow_rate := 67 / 20 }).getD 3 0 = 33 ∧
    round ((67 : Rat) / 20 * 10) = 34 ∧
    ((pourMeta {} 0 { volume := 50, temperature := 93, flow_rate := 67 / 20 }).getD 3 0 : Int) ≠
      round ((67 : Rat) / 20 * 10) := by
  have hmeta :
      (pourMeta {} 0 { volume := 50, temperature := 93, flow_rate := 67 / 20 }).getD 3 0 = 33 := by
    norm_num [pourMeta, toByte, pyInt]
    decide
  have hround : round ((67 : Rat) / 20 * 10) = 34 := by norm_num [round_eq]
  refine ⟨by norm_num [PourStep.postInit], hmeta, hround, ?_⟩
  rw [hmeta, hround]
  norm_num

/-- Claim C5 amended: for every pour step accepted by the constructor,
the flow byte emitted in the 4-byte metadata record equals
`⌊flow_rate * 10⌋` — truncation toward zero, not rounding — and that
value is at most 35, so the one-byte mask never alters it. -/
theorem c5_flow_byte_is_truncation (r : XBloomRecipe) (i : Nat) (p : PourStep)
    (hok : p.postInit = .ok p) :
    (pourMeta r i p).getD 3 0 = (⌊p.flow_rate * 10⌋).toNat ∧
    (⌊p.flow_rate * 10⌋).toNat ≤ 35 := by
  have h1 := ((pourStep_postInit_ok_iff p).mp hok).1
  rw [not_and_or, not_or, not_lt, not_lt, not_ne_iff] at h1
  have hf : p.flow_rate = 0 ∨ (3 ≤ p.flow_rate ∧ p.flow_rate ≤ 7 / 2) := h1.symm
  have h0 : (0 : Rat) ≤ p.flow_rate * 10 := by
    rcases hf with h | ⟨h3, _⟩
    · rw [h]; norm_num
    · nlinarith
  have h35 : p.flow_rate * 10 ≤ 35 := by
    rcases hf with h | ⟨_, h⟩
    · rw [h]; norm_num
    · nlinarith
  have hfl0 : 0 ≤ ⌊p.flow_rate * 10⌋ := Int.floor_nonneg.mpr h0
  have hfl35 : ⌊p.flow_rate * 10⌋ ≤ 35 := by
    have := Int.floor_le_floor (α := Rat) h35
    simpa using this
  have hpy : pyInt (p.flow_rate * 10) = ⌊p.flow_rate * 10⌋ := by
    simp only [pyInt]
    rw [if_pos h0]
  constructor
  · simp only [pourMeta, hpy, toByte, List.getD_cons_succ, List.getD_cons_zero]
    rw [Int.emod_eq_of_lt hfl0 (by omega)]
  · exact Int.toNat_le.mpr (by exact_mod_cast hfl35)

theorem c5_flow_byte_is_truncation_witness :
    (pourMeta {} 0 { volume := 50, temperature := 93, flow_rate := 3 }).getD 3 0 =
      (⌊({ volume := 50, temperature := 93, flow_rate := 3 } : PourStep).flow_rate * 10⌋).toNat ∧
    (⌊({ volume := 50, temperature := 93, flow_rate := 3 } : PourStep).flow_rate * 10⌋).toNat ≤ 35 :=
  c5_flow_byte_is_truncation {} 0 _ (by norm_num [PourStep.postInit])

/-! ### Claim C6 : brew_without_grinding command trace -/

/-- Claim C6 counterexample: cup type 4 (TEA, a defined cup type that
is not in the bounds table of `brew_without_grinding`) on a recipe the
constructor accepts receives the default bounds (90, 40): the sent cup
lower bound is 40, not zero. -/
theorem c6_unrecognized_cup_min_not_zero :
    XBloomRecipe.postInit { cup_type := 4 } = .ok { cup_type := 4 } ∧
    (brewWithoutGrindingCmds { cup_type := 4 }).getD 1 (.sendCmd 0) =
      ClientCmd.setCup 90 40 ∧
    (40 : Rat) ≠ 0 := by
  refine ⟨by norm_num [XBloomRecipe.postInit], ?_, by norm_num⟩
  norm_num [brewWithoutGrindingCmds, cupBoundsNoGrind]

/-- Claim C6 amended: for every recipe, `brew_without_grinding` sends,
in order: the bypass command with dose zero (and zero volume and
temperature); the cup bounds with lower bound zero for cup types 1, 2
and 3 but the default bounds (90, 40) — lower bound 40 — for every
other cup type value; the recipe payload under the manual/no-grinding
command 8004; and then execute (8002). -/
theorem c6_no_grind_trace (r : XBloomRecipe) :
    brewWithoutGrindingCmds r =
      [ ClientCmd.setBypass 0 0 0,
        ClientCmd.setCup (if r.cup_type = 1 then 80 else 90)
          (if r.cup_type = 1 ∨ r.cup_type = 2 ∨ r.cup_type = 3 then 0 else 40),
        ClientCmd.sendRaw 8004 (build_recipe_payload r),
        ClientCmd.sendCmd 8002 ] := by
  unfold brewWithoutGrindingCmds cupBoundsNoGrind
  rcases eq_or_ne r.cup_type 1 with h1 | h1 <;>
    rcases eq_or_ne r.cup_type 2 with h2 | h2 <;>
      rcases eq_or_ne r.cup_type 3 with h3 | h3 <;>
        simp [h1, h2, h3]

/-! ### Claim C10 : the zero-length frame stalls the scan -/

/-- Claim C10 evaluation: on a 10-byte buffer whose first byte is the
header tag 0x58 and whose declared total length (LE32 at offset 5) is
zero, one scan iteration returns to the same offset 0 (the offset does
not strictly increase), and the scan loop never finishes: it consumes
every amount of fuel, emitting one empty frame per iteration. -/
theorem c10_zero_length_no_progress :
    scanIter [0x58, 0, 0, 0, 0, 0, 0, 0, 0, 0] 0 = .next 0 (some []) ∧
    ∀ fuel : Nat, defragAux [0x58, 0, 0, 0, 0, 0, 0, 0, 0, 0] fuel 0 =
      List.replicate fuel [] := by
  have hs : scanIter [0x58, 0, 0, 0, 0, 0, 0, 0, 0, 0] 0 = .next 0 (some []) := by
    decide
  refine ⟨hs, ?_⟩
  intro fuel
  induction fuel with
  | zero => rfl
  | succ n ih =>
      rw [defragAux, if_pos (by decide), hs]
      simp [ih, List.replicate_succ]

/-! ### Claim C7 : robust_connect -/

theorem robustConnectFrom_none (behavior : Nat → AttemptOutcome) :
    ∀ (remaining attempt : Nat),
      (∀ i, attempt ≤ i → i < attempt + remaining → behavior i ≠ .returned true) →
      robustConnectFrom behavior attempt remaining = none := by
  intro remaining
  induction remaining with
  | zero => intro attempt _; rfl
  | succ n ih =>
      intro attempt h
      rw [robustConnectFrom]
      have hcur : behavior attempt ≠ .returned true :=
        h attempt (le_refl _) (by omega)
      cases hb : behavior attempt with
      | raised => exact ih (attempt + 1) (fun i hi1 hi2 => h i (by omega) (by omega))
      | returned b =>
          cases b with
          | true => exact absurd hb hcur
          | false => exact ih (attempt + 1) (fun i hi1 hi2 => h i (by omega) (by omega))

theorem robustConnectFrom_some_connected (behavior : Nat → AttemptOutcome) :
    ∀ (remaining attempt : Nat) (t : Transport),
      robustConnectFrom behavior attempt remaining = some t → t.connected = true := by
  intro remaining
  induction remaining with
  | zero => intro attempt t h; exact absurd h (by rw [robustConnectFrom]; simp)
  | succ n ih =>
      intro attempt t h
      rw [robustConnectFrom] at h
      cases hb : behavior attempt with
      | raised => rw [hb] at h; exact ih (attempt + 1) t h
      | returned b =>
          cases b with
          | true =>
              rw [hb] at h
              simp only [Option.some.injEq] at h
              rw [← h]
          | false => rw [hb] at h; exact ih (attempt + 1) t h

/-- Claim C7: for every address and every behaviour of the underlying
transport connect (`behavior` gives the outcome of each numbered
attempt, subsuming any effect of the cleanup steps on later attempts),
`robust_connect` returns the fatal no-handle outcome `none` when no
attempt in 1..max_retries (default 3) returns connected, and every
handle it does return satisfies `is_connected`; it never returns a
handle that is not connected. -/
theorem c7_robust_connect (behavior : Nat → AttemptOutcome) (maxRetries : Nat) :
    ((∀ i, 1 ≤ i → i ≤ maxRetries → behavior i ≠ .returned true) →
      robust_connect behavior maxRetries = none) ∧
    (∀ t : Transport, robust_connect behavior maxRetries = some t → t.connected = true) := by
  constructor
  · intro h
    exact robustConnectFrom_none behavior maxRetries 1
      (fun i hi1 hi2 => h i hi1 (by omega))
  · intro t h
    exact robustConnectFrom_some_connected behavior maxRetries 1 t h

theorem c7_robust_connect_witness :
    robust_connect (fun _ => AttemptOutcome.raised) 3 = none ∧
    ∀ t : Transport,
      robust_connect (fun i => AttemptOutcome.returned (i = 2)) 3 = some t →
      t.connected = true :=
  ⟨(c7_robust_connect (fun _ => AttemptOutcome.raised) 3).1
      (fun _ _ _ h => AttemptOutcome.noConfusion h),
   (c7_robust_connect (fun i => AttemptOutcome.returned (i = 2)) 3).2⟩

/-! ### Claim C3 : grinder transitions and unrecognized codes -/

/-- Claim C3 counterexample: a 10-byte frame whose response code 1 is
unrecognized does change the status snapshot: the `last_update` stamp
is written for every processed frame, recognized or not (clock value 1
against a snapshot last updated at 0). -/
theorem c3_unknown_code_changes_snapshot :
    clientParseResponse {} 1 [0x58, 1, 1, 1, 0, 10, 0, 0, 0, 1] ≠ ({} : DeviceStatus) := by
  intro h
  have := congrArg DeviceStatus.lastUpdate h
  simp [clientParseResponse, responseCodes, le16At] at this

/-- Claim C3 amended: a decoded grinder-begin frame (code 9003) sets
the state to Grinding and the grinder running flag; a following
grinder-stop frame (code 40507) sets the state to Idle and clears the
flag; and a frame whose response code is unrecognized leaves every
field of the status snapshot unchanged except the `last_update`
timestamp, which is stamped for every processed frame. -/
theorem c3_grinder_transitions :
    (∀ (st : DeviceStatus) (now : Nat) (frame : List Nat),
      10 ≤ frame.length → le16At frame 3 = 9003 →
      ((clientParseResponse st now frame).state = .grinding ∧
       (clientParseResponse st now frame).grinder.isRunning = true)) ∧
    (∀ (st : DeviceStatus) (now now2 : Nat) (fb fs : List Nat),
      10 ≤ fb.length → le16At fb 3 = 9003 →
      10 ≤ fs.length → le16At fs 3 = 40507 →
      ((clientParseResponse (clientParseResponse st now fb) now2 fs).state = .idle ∧
       (clientParseResponse (clientParseResponse st now fb) now2 fs).grinder.isRunning = false)) ∧
    (∀ (st : DeviceStatus) (now : Nat) (frame : List Nat),
      10 ≤ frame.length → le16At frame 3 ∉ responseCodes →
      clientParseResponse st now frame = { st with lastUpdate := now }) := by
  have hbegin : ∀ (st : DeviceStatus) (now : Nat) (frame : List Nat),
      10 ≤ frame.length → le16At frame 3 = 9003 →
      ((clientParseResponse st now frame).state = .grinding ∧
       (clientParseResponse st now frame).grinder.isRunning = true) := by
    intro st now frame hlen hcmd
    rw [clientParseResponse, if_neg (by omega)]
    simp only [hcmd]
    rw [if_pos (by norm_num [responseCodes])]
    norm_num [handleResponse]
  have hstop : ∀ (st : DeviceStatus) (now : Nat) (frame : List Nat),
      10 ≤ frame.length → le16At frame 3 = 40507 →
      ((clientParseResponse st now frame).state = .idle ∧
       (clientParseResponse st now frame).grinder.isRunning = false) := by
    intro st now frame hlen hcmd
    rw [clientParseResponse, if_neg (by omega)]
    simp only [hcmd]
    rw [if_pos (by norm_num [responseCodes])]
    norm_num [handleResponse]
  refine ⟨hbegin, ?_, ?_⟩
  · intro st now now2 fb fs hlb hcb hls hcs
    exact hstop (clientParseResponse st now fb) now2 fs hls hcs
  · intro st now frame hlen hcmd
    rw [clientParseResponse, if_neg (by omega)]
    simp only [if_neg hcmd]

theorem c3_grinder_transitions_witness :
    ((clientParseResponse {} 5 [0x58, 1, 1, 0x2B, 0x23, 10, 0, 0, 0, 1]).state =
        DeviceState.grinding ∧
     (clientParseResponse {} 5 [0x58, 1, 1, 0x2B, 0x23, 10, 0, 0, 0, 1]).grinder.isRunning =
        true) ∧
    ((clientParseResponse (clientParseResponse {} 5 [0x58, 1, 1, 0x2B, 0x23, 10, 0, 0, 0, 1]) 6
        [0x58, 1, 1, 0x3B, 0x9E, 10, 0, 0, 0, 1]).state = DeviceState.idle ∧
     (clientParseResponse (clientParseResponse {} 5 [0x58, 1, 1, 0x2B, 0x23, 10, 0, 0, 0, 1]) 6
        [0x58, 1, 1, 0x3B, 0x9E, 10, 0, 0, 0, 1]).grinder.isRunning = false) ∧
    clientParseResponse {} 7 [0x58, 1, 1, 1, 0, 10, 0, 0, 0, 1] =
      { ({} : DeviceStatus) with lastUpdate := 7 } :=
  ⟨c3_grinder_transitions.1 {} 5 _ (by decide) (by decide),
   c3_grinder_transitions.2.1 {} 5 6 _ _ (by decide) (by decide) (by decide) (by decide),
   c3_grinder_transitions.2.2 {} 7 _ (by decide) (by decide)⟩

/-! ### Claim C8 : recipe encoding determinism and volume chunking -/

theorem chunkVolumes_le (v : Int) (hv : 0 ≤ v) :
    ∀ c ∈ chunkVolumes v, 0 ≤ c ∧ c ≤ 127 := by
  intro c hc
  unfold chunkVolumes at hc
  by_cases h : 127 < v
  · rw [if_pos h] at hc
    rcases List.mem_append.mp hc with hrep | hrem
    · have := List.eq_of_mem_replicate hrep
      omega
    · by_cases hm : 0 < v.fmod 127
      · rw [if_pos hm] at hrem
        have hmem : c = v.fmod 127 := List.mem_singleton.mp hrem
        have h1 : 0 ≤ v.fmod 127 := Int.fmod_nonneg hv (by norm_num)
        have h2 : v.fmod 127 < 127 := Int.fmod_lt_of_pos v (by norm_num)
        omega
      · rw [if_neg hm] at hrem
        exact absurd hrem (List.not_mem_nil c)
  · rw [if_neg h] at hc
    have : c = v := List.mem_singleton.mp hc
    omega

theorem chunkVolumes_sum (v : Int) (hv : 0 ≤ v) :
    (chunkVolumes v).sum = v := by
  unfold chunkVolumes
  by_cases h : 127 < v
  · rw [if_pos h]
    have hdm : 127 * v.fdiv 127 + v.fmod 127 = v := Int.fdiv_add_fmod v 127
    have hd0 : 0 ≤ v.fdiv 127 := Int.fdiv_nonneg hv (by norm_num)
    have hm0 : 0 ≤ v.fmod 127 := Int.fmod_nonneg hv (by norm_num)
    rw [List.sum_append, List.sum_replicate, nsmul_eq_mul]
    by_cases hm : 0 < v.fmod 127
    · rw [if_pos hm]
      simp only [List.sum_cons, List.sum_nil, add_zero]
      omega
    · rw [if_neg hm]
      simp only [List.sum_nil, add_zero]
      omega
  · rw [if_neg h]
    simp

theorem pourSubSteps_volume_bytes (p : PourStep) (hv : 0 ≤ p.volume) :
    (pourSubSteps p).map (fun sr => sr.getD 0 0) =
      (chunkVolumes p.volume).map (fun c => c.toNat) := by
  unfold pourSubSteps
  rw [List.map_map]
  apply List.map_congr_left
  intro c hc
  have hb := chunkVolumes_le p.volume hv c hc
  simp only [Function.comp_apply, packSubStep, List.getD_cons_zero, toByte]
  rw [Int.emod_eq_of_lt hb.1 (by omega)]

theorem sum_map_toNat (l : List Int) (h : ∀ c ∈ l, 0 ≤ c) :
    (l.map Int.toNat).sum = l.sum.toNat := by
  induction l with
  | nil => simp
  | cons c cs ih =>
      simp only [List.map_cons, List.sum_cons]
      have hc := h c (List.mem_cons_self c cs)
      have hcs : 0 ≤ cs.sum :=
        List.sum_nonneg (fun x hx => h x (List.mem_cons_of_mem c hx))
      rw [ih (fun x hx => h x (List.mem_cons_of_mem c hx))]
      omega

/-- Claim C8: recipe encoding is a deterministic function (equal
recipes give byte-identical payloads); for every pour step with the
non-negative volume the constructor guarantees, every emitted
sub-record carries a volume byte of at most 127 and the volume bytes
sum to the step volume; and a 200-unit volume yields exactly the two
sub-records with volumes 127 and 73. -/
theorem c8_chunking :
    (∀ r1 r2 : XBloomRecipe, r1 = r2 →
      build_recipe_payload r1 = build_recipe_payload r2) ∧
    (∀ p : PourStep, 0 ≤ p.volume →
      ((∀ b ∈ (pourSubSteps p).map (fun sr => sr.getD 0 0), b ≤ 127) ∧
       ((pourSubSteps p).map (fun sr => sr.getD 0 0)).sum = p.volume.toNat)) ∧
    (∀ p : PourStep, p.volume = 200 →
      (pourSubSteps p).map (fun sr => sr.getD 0 0) = [127, 73]) := by
  refine ⟨fun r1 r2 h => congrArg build_recipe_payload h, ?_, ?_⟩
  · intro p hv
    rw [pourSubSteps_volume_bytes p hv]
    constructor
    · intro b hb
      rcases List.mem_map.mp hb with ⟨c, hc, hcb⟩
      have := chunkVolumes_le p.volume hv c hc
      omega
    · rw [sum_map_toNat _ (fun c hc => (chunkVolumes_le p.volume hv c hc).1),
        chunkVolumes_sum p.volume hv]
  · intro p hv
    rw [pourSubSteps_volume_bytes p (by omega), hv]
    decide

theorem c8_chunking_witness :
    build_recipe_payload { pours := [{ volume := 200, temperature := 93 }] } =
      build_recipe_payload { pours := [{ volume := 200, temperature := 93 }] } ∧
    ((∀ b ∈ (pourSubSteps { volume := 200, temperature := 93 }).map
        (fun sr => sr.getD 0 0), b ≤ 127) ∧
     ((pourSubSteps { volume := 200, temperature := 93 }).map
        (fun sr => sr.getD 0 0)).sum = (200 : Int).toNat) ∧
    (pourSubSteps { volume := 200, temperature := 93 }).map
        (fun sr => sr.getD 0 0) = [127, 73] :=
  ⟨c8_chunking.1 _ _ rfl,
   c8_chunking.2.1 { volume := 200, temperature := 93 } (by norm_num),
   c8_chunking.2.2 { volume := 200, temperature := 93 } (by norm_num)⟩

/-! ### Claim C4 : defragmentation of concatenated frames -/

theorem getD_append_shift (p rest : List Nat) (n : Nat) :
    (p ++ rest).getD (p.length + n) 0 = rest.getD n 0 := by
  rw [List.getD_append_right _ _ _ _ (by omega)]
  congr 1
  omega

theorem le32At_append_shift (p rest : List Nat) (k : Nat) :
    le32At (p ++ rest) (p.length + k) = le32At rest k := by
  unfold le32At
  have e1 : p.length + k + 1 = p.length + (k + 1) := by omega
  have e2 : p.length + k + 2 = p.length + (k + 2) := by omega
  have e3 : p.length + k + 3 = p.length + (k + 3) := by omega
  rw [e1, e2, e3, getD_append_shift, getD_append_shift, getD_append_shift,
    getD_append_shift]

theorem scanIter_append_shift (p rest : List Nat) (k : Nat) :
    scanIter (p ++ rest) (p.length + k) =
      match scanIter rest k with
      | .stop => ScanStep.stop
      | .next off em => ScanStep.next (p.length + off) em := by
  simp only [scanIter]
  rw [getD_append_shift]
  have hlen : (p ++ rest).length - (p.length + k) = rest.length - k := by
    rw [List.length_append]; omega
  have e5 : p.length + k + 5 = p.length + (k + 5) := by omega
  rw [e5, le32At_append_shift, List.drop_append k, hlen, List.length_append]
  split_ifs <;> first | rfl | omega | (rw [Nat.add_assoc])

theorem defragAux_append_shift (p rest : List Nat) :
    ∀ (fuel k : Nat),
      defragAux (p ++ rest) fuel (p.length + k) = defragAux rest fuel k := by
  intro fuel
  induction fuel with
  | zero => intro k; rfl
  | succ n ih =>
      intro k
      simp only [defragAux]
      have hcond : (p.length + k < (p ++ rest).length) ↔ (k < rest.length) := by
        rw [List.length_append]; omega
      by_cases hk : k < rest.length
      · rw [if_pos (hcond.mpr hk), if_pos hk, scanIter_append_shift]
        cases hs : scanIter rest k with
        | stop => rfl
        | next off em =>
            show em.toList ++ defragAux (p ++ rest) n (p.length + off) =
              em.toList ++ defragAux rest n off
            rw [ih off]
      · rw [if_neg (fun hc => hk (hcond.mp hc)), if_neg hk]

theorem defragAux_stopped (buf : List Nat) (fuel offset : Nat)
    (h : buf.length ≤ offset) : defragAux buf fuel offset = [] := by
  cases fuel with
  | zero => rfl
  | succ n => simp only [defragAux]; rw [if_neg (by omega)]

theorem scanIter_wellFramed (p rest : List Nat) (h : WellFramed p) :
    scanIter (p ++ rest) 0 = .next p.length (some p) := by
  obtain ⟨htag, hlen, hfield⟩ := h
  have h0 : (p ++ rest).getD 0 0 = p.getD 0 0 := List.getD_append _ _ _ _ (by omega)
  have hb : ¬ ((p ++ rest).getD 0 0 ≠ 0x58 ∧ (p ++ rest).getD 0 0 ≠ 0x02) := by
    rw [h0]; rcases htag with ht | ht <;> rw [ht] <;> norm_num
  have hfield2 : le32At (p ++ rest) 5 = p.length := by
    unfold le32At at hfield ⊢
    rw [List.getD_append _ _ _ _ (by omega), List.getD_append _ _ _ _ (by omega),
      List.getD_append _ _ _ _ (by omega), List.getD_append _ _ _ _ (by omega)]
    exact hfield
  simp only [scanIter]
  rw [if_neg hb,
    if_neg (show ¬ ((p ++ rest).length - 0 < 10) by rw [List.length_append]; omega)]
  simp only [Nat.zero_add, List.drop_zero]
  rw [hfield2, if_neg (by rw [List.length_append]; omega), List.take_left]

theorem build_command_head (c : Nat) (d : List Nat) (t i : Nat) :
    (build_command c d t i).getD 0 0 = 0x58 := by
  simp [build_command]

theorem build_command_lenfield (c : Nat) (d : List Nat) (t i : Nat)
    (h : 12 + 4 * d.length < 4294967296) :
    le32At (build_command c d t i) 5 = (build_command c d t i).length := by
  rw [build_command_length]
  simp only [build_command, le16, le32, List.cons_append, List.append_assoc,
    List.nil_append]
  simp [le32At]
  omega

theorem build_command_wellFramed (c : Nat) (d : List Nat) (t i : Nat)
    (h : 12 + 4 * d.length < 4294967296) :
    WellFramed (build_command c d t i) := by
  refine ⟨Or.inl (build_command_head c d t i), ?_, build_command_lenfield c d t i h⟩
  rw [build_command_length]
  omega

/-- Claim C4: (1) every packet `build_command` produces (for fields
whose total length fits the LE32 field) is well-framed; (2) a
notification buffer holding exactly two well-framed frames
back-to-back defragments into exactly those two frames, each at least
10 bytes long and hence applied (not dropped) by `_parse_response`;
(3) a byte at the scan offset that is not one of the header tags 0x58
and 0x02 advances the scan by exactly one byte, emitting nothing;
(4) a recognized header whose declared total length reaches past the
end of the buffer is dropped: the scan stops and no frame is applied
from that point. -/
theorem c4_defragmentation :
    (∀ (c : Nat) (dat : List Nat) (t i : Nat), 12 + 4 * dat.length < 4294967296 →
      WellFramed (build_command c dat t i)) ∧
    (∀ f1 f2 : List Nat, WellFramed f1 → WellFramed f2 →
      onNotificationFrames (f1 ++ f2) = [f1, f2] ∧ 10 ≤ f1.length ∧ 10 ≤ f2.length) ∧
    (∀ (buf : List Nat) (offset : Nat), offset < buf.length →
      buf.getD offset 0 ≠ 0x58 → buf.getD offset 0 ≠ 0x02 →
      scanIter buf offset = .next (offset + 1) none) ∧
    (∀ (buf : List Nat) (offset fuel : Nat),
      (buf.getD offset 0 = 0x58 ∨ buf.getD offset 0 = 0x02) →
      10 ≤ buf.length - offset → buf.length < offset + le32At buf (offset + 5) →
      defragAux buf (fuel + 1) offset = []) := by
  refine ⟨build_command_wellFramed, ?_, ?_, ?_⟩
  · intro f1 f2 h1 h2
    have hl1 : 10 ≤ f1.length := h1.2.1
    have hl2 : 10 ≤ f2.length := h2.2.1
    refine ⟨?_, hl1, hl2⟩
    have step1 : defragAux (f1 ++ f2) (f1.length + f2.length + 1) 0 =
        f1 :: defragAux (f1 ++ f2) (f1.length + f2.length) f1.length := by
      simp only [defragAux]
      rw [if_pos (by rw [List.length_append]; omega), scanIter_wellFramed f1 f2 h1]
      rfl
    have step2 : defragAux (f1 ++ f2) (f1.length + f2.length) f1.length =
        defragAux f2 (f1.length + f2.length) 0 := by
      have := defragAux_append_shift f1 f2 (f1.length + f2.length) 0
      simpa using this
    have hsplit : f1.length + f2.length = (f1.length + f2.length - 1) + 1 := by omega
    have hscan2 : scanIter f2 0 = .next f2.length (some f2) := by
      have := scanIter_wellFramed f2 [] h2
      rwa [List.append_nil] at this
    have step3 : defragAux f2 (f1.length + f2.length) 0 =
        f2 :: defragAux f2 (f1.length + f2.length - 1) f2.length := by
      rw [hsplit]
      simp only [defragAux]
      rw [if_pos (by omega), hscan2]
      rfl
    have step4 : defragAux f2 (f1.length + f2.length - 1) f2.length = [] :=
      defragAux_stopped f2 _ _ (le_refl _)
    show defragAux (f1 ++ f2) ((f1 ++ f2).length + 1) 0 = [f1, f2]
    rw [List.length_append, step1, step2, step3, step4]
  · intro buf offset h1 h2 h3
    simp only [scanIter]
    rw [if_pos ⟨h2, h3⟩]
  · intro buf offset fuel htag hrem hlen
    have hstop : scanIter buf offset = .stop := by
      simp only [scanIter]
      rw [if_neg (by rcases htag with h | h <;> rw [h] <;> norm_num),
        if_neg (by omega), if_pos hlen]
    simp only [defragAux]
    rw [if_pos (by omega), hstop]

theorem c4_defragmentation_witness :
    WellFramed (build_command 4506 [] 1 1) ∧
    onNotificationFrames (build_command 4506 [] 1 1 ++ build_command 4507 [] 1 1) =
      [build_command 4506 [] 1 1, build_command 4507 [] 1 1] ∧
    scanIter [0] 0 = .next 1 none ∧
    defragAux [0x58, 0, 0, 0, 0, 200, 0, 0, 0, 0] 4 0 = [] :=
  ⟨c4_defragmentation.1 4506 [] 1 1 (by norm_num),
   (c4_defragmentation.2.1 _ _
      (c4_defragmentation.1 4506 [] 1 1 (by norm_num))
      (c4_defragmentation.1 4507 [] 1 1 (by norm_num))).1,
   c4_defragmentation.2.2.1 [0] 0 (by norm_num) (by decide) (by decide),
   c4_defragmentation.2.2.2 _ 0 3 (by decide) (by decide) (by decide)⟩

theorem c2_validation_iff_witness :
    PourStep.postInit { volume := 50, temperature := 93, flow_rate := 3, pausing := 10 } =
      .ok { volume := 50, temperature := 93, flow_rate := 3, pausing := 10 } ∧
    XBloomRecipe.postInit { grind_size := 60, rpm := 80, bean_weight := 15 } =
      .ok { grind_size := 60, rpm := 80, bean_weight := 15 } :=
  ⟨(c2_validation_iff.1 _).mpr (by norm_num),
   (c2_validation_iff.2 _).mpr (by norm_num)⟩
